import Mathlib

/-!
Shallow embedding of the bfx-facs-http facility (src/src/http.error.js:
class HttpError and class HttpFacility) together with theorems checking
the natural-language specification against it.

JavaScript values relevant to the facility are modelled explicitly:
machine-level details (prototype chains, NaN, property aliasing) that no
claim depends on are out of scope; optional object properties are Option
fields; JS truthiness is modelled per type where the source tests it.
-/

namespace BfxHttp

/-- JS values that can appear as request/response bodies and JSON data.
String escaping in serialization is modelled for quote and backslash,
the cases the facility's data can exercise. -/
inductive JsVal where
  | str (s : String)
  | num (n : Int)
  | bool (b : Bool)
  | null
  | arr (xs : List JsVal)
  | obj (fields : List (String × JsVal))
deriving Repr

/-- JS truthiness of a JsVal (objects and arrays are always truthy). -/
def JsVal.truthy : JsVal → Bool
  | .str s => !s.isEmpty
  | .num n => n != 0
  | .bool b => b
  | .null => false
  | .arr _ => true
  | .obj _ => true

/-- Escape of one character inside a JSON string literal. -/
def escChar (c : Char) : String :=
  if c = '"' then "\\\"" else if c = '\\' then "\\\\" else String.singleton c

/-- JSON string literal for s, as JSON.stringify produces for strings. -/
def quoteJson (s : String) : String :=
  "\"" ++ s.data.foldl (fun a c => a ++ escChar c) "" ++ "\""

mutual

/-- JSON.stringify on a defined JsVal (stringify of undefined is handled
at the call site, where the body property may be absent). -/
def jsonStringify : JsVal → String
  | .str s => quoteJson s
  | .num n => toString n
  | .bool b => if b then "true" else "false"
  | .null => "null"
  | .arr xs => "[" ++ jsonStringifyList xs ++ "]"
  | .obj fs => "\x7b" ++ jsonStringifyFields fs ++ "\x7d"

/-- Comma-separated serialization of array elements. -/
def jsonStringifyList : List JsVal → String
  | [] => ""
  | [x] => jsonStringify x
  | x :: y :: xs => jsonStringify x ++ "," ++ jsonStringifyList (y :: xs)

/-- Comma-separated serialization of object fields. -/
def jsonStringifyFields : List (String × JsVal) → String
  | [] => ""
  | [(k, v)] => quoteJson k ++ ":" ++ jsonStringify v
  | (k, v) :: f :: fs =>
      quoteJson k ++ ":" ++ jsonStringify v ++ "," ++ jsonStringifyFields (f :: fs)

end

/-- A decoded response body as it flows through the dispatcher: respBody
starts as null and becomes text, parsed JSON, a buffered binary body, or
(for HEAD/OPTIONS) the response header mapping. -/
inductive RespBody where
  | null
  | text (s : String)
  | json (v : JsVal)
  | buffer (bytes : List Nat)
  | headerMap (h : List (String × String))
deriving Repr

/-- JS truthiness of the respBody variable (Headers and Buffer are
objects, hence truthy; null is falsy; a string is truthy iff nonempty;
a parsed JSON value has JsVal truthiness). -/
def RespBody.truthy : RespBody → Bool
  | .null => false
  | .text s => !s.isEmpty
  | .json v => v.truthy
  | .buffer _ => true
  | .headerMap _ => true

/-- A JS Error object as the facility builds and observes them: name is
the constructor name ("Error" for plain errors, "HttpError" for the
exported class); status/statusText/headers/response are the extra own
properties the facility may attach (absent = none). -/
structure ErrObj where
  name : String := "Error"
  message : String
  status : Option Nat := none
  statusText : Option String := none
  headers : Option (List (String × String)) := none
  response : Option RespBody := none
deriving Repr

/-- The HttpError constructor of src/src/http.error.js: sets name to the
constructor name, stores status, statusText, headers (default empty
mapping) and response (default null/none). -/
def HttpErrorMk (message : String) (status : Nat) (statusText : String)
    (headers : List (String × String)) (response : Option RespBody) : ErrObj :=
  { name := "HttpError", message := message, status := some status,
    statusText := some statusText, headers := some headers, response := response }

/-- The outcome of awaiting fetch(url, reqOpts): status, statusText and
the (lower-cased) header mapping, plus the result each body-decoding
method would yield: resp.text() reads the body as text, resp.json() may
fail with a parse error, resp.buffer() yields the raw bytes. -/
structure FetchResponse where
  status : Nat
  statusText : String
  headers : List (String × String)
  textBody : String
  jsonBody : Except ErrObj JsVal
  bufferBody : List Nat
deriving Repr

/-- resp.ok of node-fetch: status in the 2xx success range. -/
def FetchResponse.ok (r : FetchResponse) : Bool :=
  decide (200 ≤ r.status ∧ r.status < 300)

/-- A fetch call either produces a response or throws a transport error
(DNS, refused connection, timeout, malformed URL). -/
inductive FetchOutcome where
  | success (r : FetchResponse)
  | failure (e : ErrObj)

/-- Request/response encoding option: a string applies to both sides, an
object carries independent optional req/res fields. -/
inductive EncodingOpt where
  | str (s : String)
  | obj (rq : Option String) (rs : Option String)
deriving Repr

/-- The opts object accepted by request and the verb helpers. qs appears
here because callers may pass it (the README documents it); the picked
key list of the source determines which fields the dispatcher reads. -/
structure ReqOptions where
  body : Option JsVal := none
  headers : Option (List (String × String)) := none
  method : Option String := none
  redirect : Option Bool := none
  agent : Option Unit := none
  compress : Option Bool := none
  timeout : Option Int := none
  encoding : Option EncodingOpt := none
  qs : Option JsVal := none
deriving Repr

/-- The reqOpts object handed to fetch, after picking, defaulting method
and timeout, mapping redirect to manual/follow, and the json request
encoding step. -/
structure ReqOpts where
  body : Option JsVal
  headers : Option (List (String × String))
  method : String
  redirect : String
  agent : Option Unit
  compress : Option Bool
  timeout : Int
deriving Repr

/-- Facility state after _start: baseUrl with a single trailing slash
stripped, timeout defaulted to 3000 when falsy, debug coerced to Bool. -/
structure Facility where
  baseUrl : String
  timeout : Int
  debug : Bool
deriving Repr

/-- Constructor options read by _start. -/
structure FacOpts where
  baseUrl : Option String := none
  timeout : Option Int := none
  debug : Bool := false
deriving Repr

/-- The regex replace of a single trailing slash in _start. -/
def stripTrailingSlash (s : String) : String :=
  if s.data.getLast? = some '/' then s.dropRight 1 else s

/-- _start of HttpFacility: baseUrl = (opts.baseUrl or empty) with a
trailing slash stripped, timeout = opts.timeout or 3000, debug as Bool. -/
def startFacility (o : FacOpts) : Facility :=
  { baseUrl := stripTrailingSlash (o.baseUrl.getD "")
  , timeout := match o.timeout with
      | some t => if t = 0 then 3000 else t
      | none => 3000
  , debug := o.debug }

/-- Occurrence of a character sequence at any position of another. -/
def listContains (needle : List Char) : List Char → Bool
  | [] => needle.isEmpty
  | c :: cs => needle.isPrefixOf (c :: cs) || listContains needle cs

/-- JS String.prototype.includes: substring occurrence. -/
def jsIncludes (s sub : String) : Bool :=
  listContains sub.data s.data

/-- The regex replace of a single leading slash on the path. -/
def stripLeadingSlash (p : String) : String :=
  if "/".data.isPrefixOf p.data then p.drop 1 else p

/-- URL resolution of request: absolute paths (containing ://) pass
verbatim, otherwise baseUrl, a slash, and the slash-stripped path. -/
def resolveUrl (baseUrl path : String) : String :=
  if jsIncludes path "://" then path else baseUrl ++ "/" ++ stripLeadingSlash path

/-- The or-text defaulting of the req/res fields of an encoding object:
a missing or falsy (empty) string yields text. -/
def jsOrText (o : Option String) : String :=
  match o with
  | some s => if s = "" then "text" else s
  | none => "text"

/-- Encoding negotiation of request: absent encoding means text/text, a
string applies to both request and response, an object is read per side
with or-text defaulting. -/
def resolveEnc : Option EncodingOpt → String × String
  | none => ("text", "text")
  | some (.str s) => (s, s)
  | some (.obj rq rs) => (jsOrText rq, jsOrText rs)

/-- JS property read on a string-valued object. -/
def getKey (k : String) : List (String × String) → Option String
  | [] => none
  | p :: t => if p.1 = k then some p.2 else getKey k t

/-- JS property assignment on a string-valued object: overwrite the value
at an existing key in place, otherwise append the pair. -/
def setKey (l : List (String × String)) (k v : String) : List (String × String) :=
  if l.any (fun p => decide (p.1 = k)) then
    l.map (fun p => if p.1 = k then (k, v) else p)
  else l ++ [(k, v)]

/-- Lines 110-134 of request: resolve the url, pick the transport keys
(qs and encoding are not picked), default a falsy method to get and a
falsy timeout to the facility timeout, map redirect, and apply the json
request encoding (unconditional content-type set, JSON-stringified
body). Returns the url and the reqOpts handed to fetch. -/
def buildRequest (fac : Facility) (path : String) (opts : ReqOptions) :
    String × ReqOpts :=
  let url := resolveUrl fac.baseUrl path
  let method := match opts.method with
    | some m => if m = "" then "get" else m
    | none => "get"
  let timeout := match opts.timeout with
    | some t => if t = 0 then fac.timeout else t
    | none => fac.timeout
  let redirect := match opts.redirect with
    | some b => if b then "follow" else "manual"
    | none => "manual"
  let reqEnc := (resolveEnc opts.encoding).1
  let headers := if reqEnc = "json" then
      some (setKey (opts.headers.getD []) "content-type" "application/json")
    else opts.headers
  let body := if reqEnc = "json" then
      opts.body.map (fun v => JsVal.str (jsonStringify v))
    else opts.body
  (url, { body := body, headers := headers, method := method, redirect := redirect,
          agent := opts.agent, compress := opts.compress, timeout := timeout })

/-- The plain Error built for a non-2xx response: the message
interpolates status and statusText, which are also attached as own
properties; no headers and no response are attached at this point. -/
def mkProtoErr (r : FetchResponse) : ErrObj :=
  { name := "Error"
  , message := "ERR_HTTP: " ++ toString r.status ++ " - " ++ r.statusText
  , status := some r.status
  , statusText := some r.statusText
  , headers := none
  , response := none }

/-- Lines 140-144 of request: a non-2xx response yields the plain Error
above, a 2xx response yields no protocol error. -/
def protocolError (r : FetchResponse) : Option ErrObj :=
  if r.ok then none else some (mkProtoErr r)

/-- The decode switch of request (lines 151-162): json may fail with the
parse error, text reads the body, any other value buffers the bytes. -/
def decodeBody (resEnc : String) (r : FetchResponse) : Except ErrObj RespBody :=
  match resEnc with
  | "json" => r.jsonBody.map RespBody.json
  | "text" => .ok (.text r.textBody)
  | _ => .ok (.buffer r.bufferBody)

/-- The (err, res) pair handed to _response together with whether the
decode-failure branch logged to console.error. -/
structure HandleResult where
  err : Option ErrObj
  res : RespBody
  logged : Bool
deriving Repr

/-- Lines 136-170 of request, after fetch returned: classify a non-2xx
status, short-circuit HEAD/OPTIONS to the header mapping, decode the
body, on decode failure log iff debug and surface the decode error only
when no protocol error exists, and attach a truthy decoded body to an
existing protocol error. -/
def handleResponse (debug : Bool) (method resEnc : String) (r : FetchResponse) :
    HandleResult :=
  let httpErr := protocolError r
  if method = "head" ∨ method = "options" then
    { err := httpErr, res := .headerMap r.headers, logged := false }
  else
    match decodeBody resEnc r with
    | .error e =>
        match httpErr with
        | none => { err := some e, res := .null, logged := debug }
        | some he => { err := some he, res := .null, logged := debug }
    | .ok rb =>
        match httpErr with
        | some he =>
            if rb.truthy then
              { err := some { he with response := some rb }, res := rb, logged := false }
            else { err := some he, res := rb, logged := false }
        | none => { err := none, res := rb, logged := false }

/-- One completion signal: a single callback invocation with the (error,
result) pair, or a promise settling once by fulfilling or rejecting. -/
inductive Completion where
  | cbCall (err : Option ErrObj) (res : RespBody)
  | resolve (res : RespBody)
  | reject (err : ErrObj)
deriving Repr

/-- Whether a completion is a callback invocation. -/
def Completion.isCbCall : Completion → Bool
  | .cbCall _ _ => true
  | .resolve _ => false
  | .reject _ => false

/-- _response of HttpFacility: a callable cb receives (err, res); with no
callback the promise rejects with the error or resolves with the result. -/
def _response (err : Option ErrObj) (res : RespBody) (hasCb : Bool) : Completion :=
  if hasCb then .cbCall err res
  else match err with
    | some e => .reject e
    | none => .resolve res

/-- The second positional argument of the public entry points: an options
object or a callable. -/
inductive OptsArg where
  | obj (o : ReqOptions)
  | fn

/-- The isFunction overload shuffle shared by request and the helpers: a
callable options argument becomes the callback and options default to
empty. Presence of a callback is tracked as a Bool. -/
def resolveArgs : OptsArg → Bool → ReqOptions × Bool
  | .fn, _ => ({}, true)
  | .obj o, cb => (o, cb)

/-- request of HttpFacility as a function of the facility state, the
arguments, and the fetch outcome: resolve the overload, build the url
and reqOpts, and complete via _response; a thrown fetch error reaches
the outer catch and completes with (err, null). -/
def request (fac : Facility) (path : String) (optsArg : OptsArg) (cbArg : Bool)
    (outcome : FetchOutcome) : Completion :=
  let oc := resolveArgs optsArg cbArg
  let built := buildRequest fac path oc.1
  match outcome with
  | .failure e => _response (some e) .null oc.2
  | .success r =>
      let hr := handleResponse fac.debug built.2.method (resolveEnc oc.1.encoding).2 r
      _response hr.err hr.res oc.2

/-- The verbs for which HttpFacility defines a fixed-verb helper method. -/
def helpers : List String := ["get", "post", "patch", "put", "delete"]

/-- The options object a helper forwards: the caller's options spread
with method overwritten by the helper's verb. -/
def helperOpts (verb : String) (opts : ReqOptions) : ReqOptions :=
  { opts with method := some verb }

/-- Body of each fixed-verb helper (identical across the five helpers up
to its verb): resolve the overload, then forward to request with method
forced to the verb. -/
def helperRequest (fac : Facility) (verb : String) (path : String)
    (optsArg : OptsArg) (cbArg : Bool) (outcome : FetchOutcome) : Completion :=
  let oc := resolveArgs optsArg cbArg
  request fac path (.obj (helperOpts verb oc.1)) oc.2 outcome

/-! Concrete fixtures used by closed theorems and witnesses. -/

/-- A started facility with base url http://h and default timeout. -/
def facW : Facility := { baseUrl := "http://h", timeout := 3000, debug := false }

/-- A JSON parse error as resp.json() would throw it. -/
def errW : ErrObj := { name := "SyntaxError", message := "Unexpected token" }

/-- A 200 text response with body hello (its json decode would fail). -/
def resp200txt : FetchResponse :=
  { status := 200, statusText := "OK", headers := [("content-type", "text/plain")]
  , textBody := "hello", jsonBody := .error errW, bufferBody := [] }

/-- A 500 text response with body nope (its json decode would fail). -/
def resp500txt : FetchResponse :=
  { status := 500, statusText := "Internal Server Error"
  , headers := [("content-type", "text/plain")]
  , textBody := "nope", jsonBody := .error errW, bufferBody := [] }

/-! Projection lemmas shared by the claim theorems. -/

/-- The dispatched method is the caller's method with falsy values
replaced by get. -/
theorem buildRequest_method (fac : Facility) (path : String) (opts : ReqOptions) :
    (buildRequest fac path opts).2.method =
      match opts.method with
      | some m => if m = "" then "get" else m
      | none => "get" := rfl

/-- The dispatched timeout is the caller's timeout with falsy values
replaced by the facility timeout. -/
theorem buildRequest_timeout (fac : Facility) (path : String) (opts : ReqOptions) :
    (buildRequest fac path opts).2.timeout =
      match opts.timeout with
      | some t => if t = 0 then fac.timeout else t
      | none => fac.timeout := rfl

/-! Claim theorems. -/

/-- C4: for every path containing the substring ://, the dispatched URL
is the path verbatim regardless of baseUrl; otherwise it is baseUrl, a
slash, and the path with a single leading slash stripped. -/
theorem C4_url_resolution (fac : Facility) (path : String) (opts : ReqOptions) :
    (buildRequest fac path opts).1 =
      if jsIncludes path "://" then path
      else fac.baseUrl ++ "/" ++ stripLeadingSlash path := rfl

/-- C10: a falsy per-call timeout (absent or 0) is replaced by the
facility timeout, a falsy method (absent or empty) by get; consequently
the dispatched timeout is nonzero whenever the facility timeout is, and
the dispatched method is never the empty string. -/
theorem C10_falsy_defaults (fac : Facility) (path : String) (opts : ReqOptions) :
    ((opts.timeout = none ∨ opts.timeout = some 0) →
      (buildRequest fac path opts).2.timeout = fac.timeout)
    ∧ ((opts.method = none ∨ opts.method = some "") →
      (buildRequest fac path opts).2.method = "get")
    ∧ (fac.timeout ≠ 0 → (buildRequest fac path opts).2.timeout ≠ 0)
    ∧ (buildRequest fac path opts).2.method ≠ "" := by
  refine ⟨?_, ?_, ?_, ?_⟩
  · rintro (h | h) <;> simp [buildRequest_timeout, h]
  · rintro (h | h) <;> simp [buildRequest_method, h]
  · intro hf
    rw [buildRequest_timeout]
    rcases opts.timeout with _ | t
    · exact hf
    · by_cases ht : t = 0
      · simpa [ht] using hf
      · simp [ht]
  · rw [buildRequest_method]
    rcases opts.method with _ | m
    · simp
    · by_cases hm : m = "" <;> simp [hm]

/-- The falsy-default replacements of C10 observed at a concrete call
with timeout 0 and an empty method string. -/
theorem C10_falsy_defaults_witness :
    (buildRequest facW "p" { method := some "", timeout := some 0 }).2.timeout
      = facW.timeout
    ∧ (buildRequest facW "p" { method := some "", timeout := some 0 }).2.method
      = "get" :=
  ⟨(C10_falsy_defaults facW "p" { method := some "", timeout := some 0 }).1
      (Or.inr rfl),
   (C10_falsy_defaults facW "p" { method := some "", timeout := some 0 }).2.1
      (Or.inr rfl)⟩

/-- Options carrying only qs pairs, as the spec's query composer would
read them. -/
def optsQs : ReqOptions :=
  { qs := some (.obj [("a", .str "1"), ("b", .str "c")]) }

/-- C3: contrary to the claim, the dispatcher performs no query-string
composition: qs is not among the picked option keys, no facility default
qs is read, and the dispatched URL carries no query component — the call
with qs dispatches the very same request as the call without it. -/
theorem C3_qs_ignored :
    buildRequest facW "/items" optsQs = buildRequest facW "/items" { }
    ∧ (buildRequest facW "/items" optsQs).1 = "http://h/items" :=
  ⟨rfl, rfl⟩

/-- C1: contrary to the claim, a successful call completes with the bare
decoded body, not a body/headers envelope: the promise form fulfills
with the decoded text itself and the callback form passes it as the
result, the response header mapping appearing in neither. -/
theorem C1_no_envelope :
    request facW "/x" (.obj { }) false (.success resp200txt)
      = .resolve (.text "hello")
    ∧ request facW "/x" (.obj { }) true (.success resp200txt)
      = .cbCall none (.text "hello") :=
  ⟨rfl, rfl⟩

/-- C7: the facility defines fixed-verb helpers only for get, post,
patch, put and delete — head and options are not among them — and a
defined helper overrides the method of the caller's options with its own
verb. -/
theorem C7_helpers :
    "head" ∉ helpers ∧ "options" ∉ helpers
    ∧ (buildRequest facW "/x" (helperOpts "get" { method := some "post" })).2.method
        = "get" := by
  refine ⟨by decide, by decide, rfl⟩

/-- Assigning an existing key rewrites its value in place. -/
theorem getKey_map_set (k v : String) (l : List (String × String))
    (h : l.any (fun p => decide (p.1 = k)) = true) :
    getKey k (l.map (fun p => if p.1 = k then (k, v) else p)) = some v := by
  induction l with
  | nil => simp at h
  | cons p t ih =>
      by_cases hp : p.1 = k
      · simp [getKey, hp]
      · have ht : t.any (fun p => decide (p.1 = k)) = true := by
          simpa [List.any_cons, hp] using h
        simpa [getKey, hp] using ih ht

/-- Appending a fresh key makes it found at the key. -/
theorem getKey_append_fresh (k v : String) (l : List (String × String))
    (h : l.any (fun p => decide (p.1 = k)) = false) :
    getKey k (l ++ [(k, v)]) = some v := by
  induction l with
  | nil => simp [getKey]
  | cons p t ih =>
      have hp : ¬p.1 = k := by
        intro hp1
        simp [List.any_cons, hp1] at h
      have ht : t.any (fun p => decide (p.1 = k)) = false := by
        simpa [List.any_cons, hp] using h
      simpa [getKey, hp] using ih ht

/-- setKey always makes the assigned value the one found at the key. -/
theorem setKey_getKey (l : List (String × String)) (k v : String) :
    getKey k (setKey l k v) = some v := by
  unfold setKey
  by_cases h : l.any (fun p => decide (p.1 = k)) = true
  · rw [if_pos h]
    exact getKey_map_set k v l h
  · have h' : l.any (fun p => decide (p.1 = k)) = false := by
      cases hb : l.any (fun p => decide (p.1 = k)) with
      | false => rfl
      | true => exact absurd hb h
    rw [if_neg h]
    exact getKey_append_fresh k v l h'

/-- Every execution path of request completes through one _response
call whose callback flag is the overload-resolved one. -/
theorem request_through_response (fac : Facility) (path : String) (a : OptsArg)
    (c : Bool) (o : FetchOutcome) :
    ∃ E R, request fac path a c o = _response E R (resolveArgs a c).2 := by
  cases o with
  | failure e => exact ⟨some e, .null, rfl⟩
  | success r => exact ⟨_, _, rfl⟩

/-- The delivered error of the failed call C2 evaluates to: a plain
Error with message, status and statusText, the decoded text attached as
response, and no headers property. -/
def c2err : ErrObj :=
  { name := "Error", message := "ERR_HTTP: 500 - Internal Server Error"
  , status := some 500, statusText := some "Internal Server Error"
  , headers := none, response := some (.text "nope") }

/-- C2 counterexample: on a 500 response whose text body decodes fine,
the promise form rejects with a plain Error, not an HttpError, and no
headers mapping is attached to it, contrary to the claim. -/
theorem C2_plain_error_counterexample :
    request facW "/x" (.obj { }) false (.success resp500txt) = .reject c2err
    ∧ c2err.name ≠ "HttpError"
    ∧ c2err.headers = none :=
  ⟨rfl, by decide, rfl⟩

/-- C2 amended: for every non-2xx response the completion error is a
plain Error (name Error, not an HttpError instance) carrying the message
ERR_HTTP status - statusText, the status and the statusText; no headers
are attached; the response property is attached exactly when the call
decodes a body (so not for HEAD/OPTIONS), decoding succeeds, and the
decoded value is truthy. -/
theorem C2_error_shape (debug : Bool) (method resEnc : String) (r : FetchResponse)
    (hok : r.ok = false) :
    ∃ e, (handleResponse debug method resEnc r).err = some e
    ∧ e.name = "Error"
    ∧ e.message = "ERR_HTTP: " ++ toString r.status ++ " - " ++ r.statusText
    ∧ e.status = some r.status
    ∧ e.statusText = some r.statusText
    ∧ e.headers = none
    ∧ e.response = (if method = "head" ∨ method = "options" then none
        else match decodeBody resEnc r with
          | .ok rb => if rb.truthy then some rb else none
          | .error _ => none) := by
  have hpe : protocolError r = some (mkProtoErr r) := by
    simp [protocolError, hok]
  by_cases hm : method = "head" ∨ method = "options"
  · refine ⟨mkProtoErr r, ?_, rfl, rfl, rfl, rfl, rfl, by simp [hm, mkProtoErr]⟩
    simp [handleResponse, hm, hpe]
  · rcases hd : decodeBody resEnc r with e0 | rb
    · refine ⟨mkProtoErr r, ?_, rfl, rfl, rfl, rfl, rfl,
        by simp [hm, hd, mkProtoErr]⟩
      simp [handleResponse, hm, hpe, hd]
    · by_cases htr : rb.truthy
      · refine ⟨{ mkProtoErr r with response := some rb }, ?_, rfl, rfl, rfl, rfl,
          rfl, by simp [hm, hd, htr]⟩
        simp [handleResponse, hm, hpe, hd, htr]
      · refine ⟨mkProtoErr r, ?_, rfl, rfl, rfl, rfl, rfl,
          by simp [hm, hd, htr, mkProtoErr]⟩
        simp [handleResponse, hm, hpe, hd, htr]

/-- The C2 error shape observed on the concrete 500 text response. -/
theorem C2_error_shape_witness :
    ((handleResponse false "get" "text" resp500txt).err.map ErrObj.name)
      = some "Error" := by
  obtain ⟨e, he, hname, -, -, -, -, -⟩ :=
    C2_error_shape false "get" "text" resp500txt rfl
  rw [he]
  simp [hname]

/-- C5: when body decoding fails on a call that decodes (not
HEAD/OPTIONS): on a non-2xx response the decode failure is discarded,
console logging happens exactly when debug is set, and the protocol
error is delivered with the response property absent; on a 2xx response
the decode error itself becomes the completion error (same logging). -/
theorem C5_decode_failure (debug : Bool) (method resEnc : String)
    (r : FetchResponse) (e : ErrObj)
    (hm : ¬(method = "head" ∨ method = "options"))
    (hd : decodeBody resEnc r = .error e) :
    (r.ok = false →
      handleResponse debug method resEnc r
        = { err := protocolError r, res := .null, logged := debug }
      ∧ ∀ he, protocolError r = some he → he.response = none)
    ∧ (r.ok = true →
      handleResponse debug method resEnc r
        = { err := some e, res := .null, logged := debug }) := by
  constructor
  · intro hok
    have hpe : protocolError r = some (mkProtoErr r) := by
      simp [protocolError, hok]
    refine ⟨?_, ?_⟩
    · simp [handleResponse, hm, hd, hpe]
    · intro he hhe
      rw [hpe] at hhe
      injection hhe with h
      subst h
      rfl
  · intro hok
    have hpe : protocolError r = none := by
      simp [protocolError, hok]
    simp [handleResponse, hm, hd, hpe]

/-- The C5 protocol-error branch observed on the concrete 500 response
with a failing json decode and debug off. -/
theorem C5_decode_failure_witness :
    handleResponse false "get" "json" resp500txt
      = { err := protocolError resp500txt, res := .null, logged := false } :=
  ((C5_decode_failure false "get" "json" resp500txt errW (by decide) rfl).1 rfl).1

/-- Options with a caller-supplied content-type and json encoding. -/
def optsXml : ReqOptions :=
  { body := some (.str "hi"), headers := some [("content-type", "text/xml")]
  , encoding := some (.str "json") }

/-- C6 counterexample: with json request encoding and a caller-supplied
content-type of text/xml, the dispatched content-type is
application/json — the header is overwritten, not preserved as the claim
states. -/
theorem C6_content_type_counterexample :
    getKey "content-type" ((buildRequest facW "/x" optsXml).2.headers.getD [])
      = some "application/json"
    ∧ ("application/json" : String) ≠ "text/xml" :=
  ⟨rfl, by decide⟩

/-- C6 amended: with resolved request encoding json the outgoing headers
always carry content-type application/json (assigned unconditionally,
overwriting any caller value at that key) and the body is replaced by
its JSON serialization; any other request encoding passes headers and
body through untouched. -/
theorem C6_json_request_encoding (fac : Facility) (path : String)
    (opts : ReqOptions) :
    ((resolveEnc opts.encoding).1 = "json" →
      (buildRequest fac path opts).2.headers
        = some (setKey (opts.headers.getD []) "content-type" "application/json")
      ∧ getKey "content-type" ((buildRequest fac path opts).2.headers.getD [])
        = some "application/json"
      ∧ (buildRequest fac path opts).2.body
        = opts.body.map (fun v => JsVal.str (jsonStringify v)))
    ∧ ((resolveEnc opts.encoding).1 ≠ "json" →
      (buildRequest fac path opts).2.headers = opts.headers
      ∧ (buildRequest fac path opts).2.body = opts.body) := by
  constructor
  · intro hj
    refine ⟨by simp [buildRequest, hj], ?_, by simp [buildRequest, hj]⟩
    have h1 : (buildRequest fac path opts).2.headers
        = some (setKey (opts.headers.getD []) "content-type" "application/json") := by
      simp [buildRequest, hj]
    rw [h1]
    exact setKey_getKey _ _ _
  · intro hj
    exact ⟨by simp [buildRequest, hj], by simp [buildRequest, hj]⟩

/-- The C6 json-encoding effects observed on the concrete options with a
conflicting caller content-type. -/
theorem C6_json_request_encoding_witness :
    (buildRequest facW "/x" optsXml).2.headers
      = some (setKey [("content-type", "text/xml")] "content-type" "application/json")
    ∧ (buildRequest facW "/x" optsXml).2.body = some (.str "\"hi\"") := by
  obtain ⟨h1, -, h3⟩ := (C6_json_request_encoding facW "/x" optsXml).1 rfl
  refine ⟨h1, ?_⟩
  rw [h3]
  rfl

/-- Options selecting the head method. -/
def optsHead : ReqOptions := { method := some "head" }

/-- C8: for every call whose dispatched method is head or options the
completion is _response applied to the protocol-error classification and
the response header mapping as the body — body decoding is never
consulted (no decode field of the response occurs in the result). -/
theorem C8_head_options_skip_decode (fac : Facility) (path : String)
    (opts : ReqOptions) (cbArg : Bool) (r : FetchResponse)
    (hm : (buildRequest fac path opts).2.method = "head"
        ∨ (buildRequest fac path opts).2.method = "options") :
    request fac path (.obj opts) cbArg (.success r)
      = _response (protocolError r) (.headerMap r.headers) cbArg := by
  have h1 : handleResponse fac.debug (buildRequest fac path opts).2.method
      (resolveEnc opts.encoding).2 r
      = { err := protocolError r, res := .headerMap r.headers, logged := false } := by
    unfold handleResponse
    rw [if_pos hm]
  simp only [request, resolveArgs]
  rw [h1]

/-- The C8 header-mapping completion observed on a concrete head call. -/
theorem C8_head_options_skip_decode_witness :
    request facW "/x" (.obj optsHead) false (.success resp200txt)
      = _response (protocolError resp200txt)
          (.headerMap resp200txt.headers) false :=
  C8_head_options_skip_decode facW "/x" optsHead false resp200txt (Or.inl rfl)

/-- C9: a callable options argument is reinterpreted as the callback
with options defaulting to empty, identically for request and every verb
helper; whenever a callback is (effectively) supplied the call completes
by exactly one callback invocation with an (error, result) pair, and
otherwise it completes by exactly one promise settlement, fulfilling
with the result or rejecting with the error. -/
theorem C9_completion_adapter (fac : Facility) (path : String) (cbArg : Bool)
    (o : FetchOutcome) :
    request fac path .fn cbArg o = request fac path (.obj { }) true o
    ∧ (∀ verb, helperRequest fac verb path .fn cbArg o
        = helperRequest fac verb path (.obj { }) true o)
    ∧ (∀ a c, (resolveArgs a c).2 = true →
        ∃ e r, request fac path a c o = .cbCall e r)
    ∧ (∀ a c, (resolveArgs a c).2 = false →
        (∃ r, request fac path a c o = .resolve r)
        ∨ (∃ e, request fac path a c o = .reject e)) := by
  refine ⟨rfl, fun verb => rfl, ?_, ?_⟩
  · intro a c h
    obtain ⟨E, R, hER⟩ := request_through_response fac path a c o
    rw [hER, h]
    exact ⟨E, R, rfl⟩
  · intro a c h
    obtain ⟨E, R, hER⟩ := request_through_response fac path a c o
    rw [hER, h]
    cases E with
    | none => exact Or.inl ⟨R, rfl⟩
    | some e => exact Or.inr ⟨e, rfl⟩

/-- The C9 adapter observed concretely: the callable-options overload
matches the explicit empty options, and the callback form completes by
a callback invocation. -/
theorem C9_completion_adapter_witness :
    request facW "p" .fn false (.success resp200txt)
      = request facW "p" (.obj { }) true (.success resp200txt)
    ∧ (request facW "p" (.obj { }) true (.success resp200txt)).isCbCall = true := by
  constructor
  · exact (C9_completion_adapter facW "p" false (.success resp200txt)).1
  · obtain ⟨e, r, h⟩ :=
      (C9_completion_adapter facW "p" false (.success resp200txt)).2.2.1
        (.obj { }) true rfl
    rw [h]
    rfl

end BfxHttp
